import Mathlib

/-!
Shallow embedding of the Emberglow TTS client's project-generation and
polling orchestration layer, with theorems checking the specification's
claims against the code.

Sources embedded:
* `useProjectPolling` (the polling engine hook);
* `ProjectStateManager` (`saveProject` / `loadProject`, session persistence);
* `MainTts` (`startProject`, `handleRegenerate`) and the `ChunkItem` /
  `ProjectView` render logic that gates the regenerate control.
-/

namespace Emberglow

/-- Chunk status: `pending | processing | completed | failed`
(interface `Chunk` in the MainTts component). -/
inductive ChunkStatus
  | pending
  | processing
  | completed
  | failed
deriving DecidableEq, Repr

/-- One script segment, 1:1 with one synthesized clip
(interface `Chunk`). Numeric diagnostic fields are kept as integers. -/
structure Chunk where
  index : Nat
  text : String
  status : ChunkStatus
  audio_filename : Option String := none
  elapsed_time : Option Int := none
  error : Option String := none
deriving DecidableEq, Repr

instance : Inhabited Chunk := ⟨⟨0, "", ChunkStatus.pending, none, none, none⟩⟩

/-- One long-form generation job (interface `Project`).
`status` is an optional free-form string, as in the TypeScript interface. -/
structure Project where
  id : String
  audioName : Option String := none
  chunks : List Chunk
  progress_percent : Option Int := none
  completed_chunks : Option Nat := none
  total_chunks : Option Nat := none
  status : Option String := none
  was_normalized : Option Bool := none
deriving DecidableEq, Repr

/-- The terminal status list from `useProjectPolling`:
`['completed', 'failed', 'review', 'cancelled', 'stitched']`. -/
def terminalStatuses : List String :=
  ["completed", "failed", "review", "cancelled", "stitched"]

/-- `isDone` test of the poll loop:
`['completed', ...].includes(data.status || '')`. -/
def isDoneStatus (p : Project) : Bool :=
  terminalStatuses.contains (p.status.getD "")

/-- `hasProcessingChunks` test of the poll loop:
`data.chunks.some((c) => c.status === 'processing')`. -/
def hasProcessingChunks (p : Project) : Bool :=
  p.chunks.any (fun c => c.status == ChunkStatus.processing)

/-! ### Polling engine (`useProjectPolling`)

The hook keeps a single `timeoutRef`; `stop` clears it, `start pid`
clears it and runs `poll` once; each `poll` either reschedules itself
(storing a new timer) or stops and fires `onDone` / `onError`.  We model
the timer slot as an optional pending timer and one resolution of `poll`
as a function from the fetch result to the successor state plus the list
of observable events it performs. -/

/-- A pending `setTimeout(poll, delay)`: the project id captured by the
`poll` closure and the delay it was scheduled with. -/
structure Timer where
  projectId : String
  delay : Nat
deriving DecidableEq, Repr

/-- The engine's mutable state: the `timeoutRef` slot. -/
structure EngineState where
  timeout : Option Timer
deriving DecidableEq, Repr

/-- The error shape probed by the catch block:
`err?.response?.status ?? err?.status ?? err?.code`. -/
structure ErrObj where
  responseStatus : Option Nat
  status : Option Nat
  code : Option Nat
deriving DecidableEq, Repr

/-- The catch block's status extraction
(`??` chains through the first defined field). -/
def ErrObj.httpStatus (e : ErrObj) : Option Nat :=
  (e.responseStatus.orElse fun _ => e.status).orElse fun _ => e.code

/-- Outcome of one `fetchStatus(projectId)` call. -/
inductive FetchResult
  | ok (p : Project)
  | err (e : ErrObj)
deriving DecidableEq, Repr

/-- Observable actions of one `poll` resolution: the fetch it issues and
the callbacks it invokes. -/
inductive Event
  | fetch (projectId : String)
  | update (p : Project)
  | done (p : Project)
  | error (e : ErrObj)
deriving DecidableEq, Repr

/-- `stop`: `clearTimeout(timeoutRef.current); timeoutRef.current = null`. -/
def stop (_s : EngineState) : EngineState := ⟨none⟩

/-- One resolution of the `poll` closure for `projectId`, given the fetch
result `r`.  Mirrors the body of `poll` in `useProjectPolling`:
on success invoke `onUpdate`, then reschedule unless
`isDone && !hasProcessingChunks`, in which case stop and invoke `onDone`;
on failure reschedule after `min 2000 interval` when the extracted status
is 503, otherwise stop and invoke `onError`. -/
def poll (interval : Nat) (projectId : String) (r : FetchResult)
    (s : EngineState) : EngineState × List Event :=
  match r with
  | FetchResult.ok data =>
      if !isDoneStatus data || hasProcessingChunks data then
        (⟨some ⟨projectId, interval⟩⟩, [Event.fetch projectId, Event.update data])
      else
        (stop s, [Event.fetch projectId, Event.update data, Event.done data])
  | FetchResult.err e =>
      if e.httpStatus == some 503 then
        (⟨some ⟨projectId, Nat.min 2000 interval⟩⟩, [Event.fetch projectId])
      else
        (stop s, [Event.fetch projectId, Event.error e])

/-- `start(projectId)`: `stop()` then run `poll()` immediately; `r` is the
result of that first fetch. -/
def start (interval : Nat) (projectId : String) (r : FetchResult)
    (s : EngineState) : EngineState × List Event :=
  poll interval projectId r (stop s)

/-- A pending timer firing: the stored `poll` closure runs for the project
id it captured; nothing happens when no timer is pending. -/
def fireTimer (interval : Nat) (r : FetchResult) (s : EngineState) :
    EngineState × List Event :=
  match s.timeout with
  | none => (s, [])
  | some t => poll interval t.projectId r ⟨none⟩

/-- Projection of an event list onto the project ids fetched. -/
def fetchesOf (evs : List Event) : List String :=
  evs.filterMap fun e =>
    match e with
    | Event.fetch pid => some pid
    | _ => none

/-- C1: for every `Project` returned by a status fetch, the polling loop
stops — leaves no pending timer and invokes `onDone` — iff the project's
status is one of completed, failed, review, cancelled, stitched and no
chunk has status `processing`; in particular a terminal status with a
chunk still `processing` keeps the timer pending. -/
theorem poll_stops_iff_done_and_no_processing
    (interval : Nat) (projectId : String) (data : Project) (s : EngineState) :
    ((poll interval projectId (FetchResult.ok data) s).1.timeout = none ∧
      Event.done data ∈ (poll interval projectId (FetchResult.ok data) s).2)
      ↔ ((data.status.getD "" = "completed" ∨ data.status.getD "" = "failed" ∨
          data.status.getD "" = "review" ∨ data.status.getD "" = "cancelled" ∨
          data.status.getD "" = "stitched") ∧
         ∀ c ∈ data.chunks, c.status ≠ ChunkStatus.processing) := by
  have hterm : (isDoneStatus data = true)
      ↔ (data.status.getD "" = "completed" ∨ data.status.getD "" = "failed" ∨
         data.status.getD "" = "review" ∨ data.status.getD "" = "cancelled" ∨
         data.status.getD "" = "stitched") := by
    simp [isDoneStatus, terminalStatuses]
  have hproc : (hasProcessingChunks data = false)
      ↔ ∀ c ∈ data.chunks, c.status ≠ ChunkStatus.processing := by
    simp [hasProcessingChunks, List.any_eq_false]
  have hprocT : (hasProcessingChunks data = true)
      ↔ ∃ c ∈ data.chunks, c.status = ChunkStatus.processing := by
    simp [hasProcessingChunks, List.any_eq_true]
  by_cases hd : isDoneStatus data = true
  · by_cases hp : hasProcessingChunks data = true
    · simp only [poll, hd, hp, Bool.not_true, Bool.false_or, if_pos]
      constructor
      · intro h
        simp at h
      · rintro ⟨-, h2⟩
        obtain ⟨c, hc, hcs⟩ := hprocT.mp hp
        exact absurd hcs (h2 c hc)
    · have hp' : hasProcessingChunks data = false := by
        simpa using hp
      simp only [poll, hd, hp', Bool.not_true, Bool.false_or, if_neg,
        Bool.false_eq_true, not_false_iff, stop]
      simp only [List.mem_cons, List.mem_singleton]
      constructor
      · intro _
        exact ⟨hterm.mp hd, hproc.mp hp'⟩
      · intro _
        simp
  · have hd' : isDoneStatus data = false := by
      simpa using hd
    simp only [poll, hd', Bool.not_false, Bool.true_or, if_pos]
    constructor
    · intro h
      simp at h
    · rintro ⟨h1, -⟩
      exact absurd (hterm.mpr h1) hd

/-- C1 witness: a project with terminal status `completed` but one chunk
still `processing` makes the loop reschedule (polling continues), while
the same project with that chunk `completed` stops the loop. -/
theorem poll_stops_iff_done_and_no_processing_witness :
    let lingering : Project :=
      { id := "p1", chunks := [⟨0, "a", ChunkStatus.completed, some "a0.wav", none, none⟩,
          ⟨1, "b", ChunkStatus.processing, none, none, none⟩],
        status := some "completed" }
    ¬((poll 5000 "p1" (FetchResult.ok lingering) ⟨none⟩).1.timeout = none ∧
        Event.done lingering ∈ (poll 5000 "p1" (FetchResult.ok lingering) ⟨none⟩).2) := by
  intro lingering
  rw [poll_stops_iff_done_and_no_processing]
  decide

/-- C3: while a timer for `idA` is still pending, `start idB` first clears
that timer and performs exactly one immediate fetch, for `idB`: the events
of the run fetch only `idB`, any timer it leaves pending targets `idB`,
and firing the successor state's timer can never fetch `idA` again. -/
theorem start_cancels_previous_timer
    (interval : Nat) (idA idB : String) (tA : Timer) (r : FetchResult)
    (s : EngineState)
    (hpend : s.timeout = some tA) (hA : tA.projectId = idA) (hne : idA ≠ idB) :
    fetchesOf (start interval idB r s).2 = [idB] ∧
    (∀ t, (start interval idB r s).1.timeout = some t → t.projectId = idB) ∧
    (∀ r2, idA ∉ fetchesOf (fireTimer interval r2 (start interval idB r s).1).2) := by
  subst hA
  refine ⟨?_, ?_, ?_⟩
  · cases r with
    | ok data =>
        by_cases h : (!isDoneStatus data || hasProcessingChunks data) = true
        · simp [start, poll, h, fetchesOf, stop]
        · simp [start, poll, h, fetchesOf, stop]
    | err e =>
        by_cases h : (e.httpStatus == some 503) = true
        · simp [start, poll, h, fetchesOf, stop]
        · simp [start, poll, h, fetchesOf, stop]
  · intro t ht
    cases r with
    | ok data =>
        by_cases h : (!isDoneStatus data || hasProcessingChunks data) = true
        · simp [start, poll, h, stop] at ht
          rw [← ht]
        · simp [start, poll, h, stop] at ht
    | err e =>
        by_cases h : (e.httpStatus == some 503) = true
        · simp [start, poll, h, stop] at ht
          rw [← ht]
        · simp [start, poll, h, stop] at ht
  · intro r2
    rcases hafter : (start interval idB r s).1.timeout with _ | t
    · simp [fireTimer, hafter, fetchesOf]
    · have hB : t.projectId = idB := by
        cases r with
        | ok data =>
            by_cases h : (!isDoneStatus data || hasProcessingChunks data) = true
            · simp [start, poll, h, stop] at hafter
              rw [← hafter]
            · simp [start, poll, h, stop] at hafter
        | err e =>
            by_cases h : (e.httpStatus == some 503) = true
            · simp [start, poll, h, stop] at hafter
              rw [← hafter]
            · simp [start, poll, h, stop] at hafter
      cases r2 with
      | ok data =>
          by_cases h : (!isDoneStatus data || hasProcessingChunks data) = true
          · simp [fireTimer, hafter, poll, h, fetchesOf, stop, hB]
            exact hne
          · simp [fireTimer, hafter, poll, h, fetchesOf, stop, hB]
            exact hne
      | err e =>
          by_cases h : (e.httpStatus == some 503) = true
          · simp [fireTimer, hafter, poll, h, fetchesOf, stop, hB]
            exact hne
          · simp [fireTimer, hafter, poll, h, fetchesOf, stop, hB]
            exact hne

/-- C3 witness: concrete run with a pending timer for `"a"` and a new
`start "b"` whose first fetch returns a mid-flight project. -/
theorem start_cancels_previous_timer_witness :
    let busy : Project := { id := "b", chunks := [], status := some "processing" }
    let run := start 5000 "b" (FetchResult.ok busy) ⟨some ⟨"a", 5000⟩⟩
    fetchesOf run.2 = ["b"] ∧
    (∀ t, run.1.timeout = some t → t.projectId = "b") ∧
    (∀ r2, "a" ∉ fetchesOf (fireTimer 5000 r2 run.1).2) :=
  start_cancels_previous_timer 5000 "a" "b" ⟨"a", 5000⟩
    (FetchResult.ok { id := "b", chunks := [], status := some "processing" })
    ⟨some ⟨"a", 5000⟩⟩ rfl rfl (by decide)

/-- C6: a fetch failure whose extracted status is 503 reschedules the poll
for the same project after `min 2000 interval` milliseconds and performs no
`onError` (and no other callback): the loop is not stopped. -/
theorem transient_busy_reschedules_short_no_error
    (interval : Nat) (projectId : String) (e : ErrObj) (s : EngineState)
    (h503 : e.httpStatus = some 503) :
    (poll interval projectId (FetchResult.err e) s).1.timeout =
      some ⟨projectId, Nat.min 2000 interval⟩ ∧
    (poll interval projectId (FetchResult.err e) s).2 = [Event.fetch projectId] := by
  simp [poll, h503]

/-- C6 witness: an error object carrying HTTP 503 in `response.status`,
with the default 5000 ms interval, reschedules after 2000 ms with no
`onError` event. -/
theorem transient_busy_reschedules_short_no_error_witness :
    (poll 5000 "p1" (FetchResult.err ⟨some 503, none, none⟩) ⟨none⟩).1.timeout =
      some ⟨"p1", Nat.min 2000 5000⟩ ∧
    (poll 5000 "p1" (FetchResult.err ⟨some 503, none, none⟩) ⟨none⟩).2 =
      [Event.fetch "p1"] :=
  transient_busy_reschedules_short_no_error 5000 "p1" ⟨some 503, none, none⟩ ⟨none⟩ rfl

/-! ### Session persistence store (`ProjectStateManager`)

`loadProject` reads the URL query parameters `project` / `name` first
(JavaScript truthiness: a missing or empty parameter is falsy), then
falls back to the tier-1 (`localStorage`) and tier-2 (`sessionStorage`)
records, applying a 24-hour freshness window to the stored record only.
`saveProject` writes the URL and both storage tiers inside one `try`
block.  Storage contents are modelled as the parsed record when a
parseable record is present. -/

/-- The JSON record `{projectId, projectName, timestamp}` kept in the
storage tiers (`Date.now()` timestamps, in milliseconds). -/
structure StoredRecord where
  projectId : String
  projectName : String
  timestamp : Int
deriving DecidableEq, Repr

/-- The `{projectId, projectName}` value `loadProject` returns. -/
structure LoadedProject where
  projectId : String
  projectName : String
deriving DecidableEq, Repr

/-- JavaScript truthiness of a `URLSearchParams.get` result: `null` and
the empty string are falsy. -/
def jsTruthy : Option String → Bool
  | none => false
  | some s => !(s == "")

/-- The freshness window `24 * 60 * 60 * 1000` milliseconds. -/
def freshnessWindowMs : Int := 24 * 60 * 60 * 1000

/-- `ProjectStateManager.loadProject`, with the environment made explicit:
the two URL parameters as `URLSearchParams.get` results, the parsed
records of the two storage tiers, the current time, and
`decodeURIComponent` as the `decode` argument. -/
def loadProject (decode : String → String)
    (projectFromUrl nameFromUrl : Option String)
    (localData sessionData : Option StoredRecord) (now : Int) :
    Option LoadedProject :=
  if jsTruthy projectFromUrl && jsTruthy nameFromUrl then
    some ⟨projectFromUrl.getD "", decode (nameFromUrl.getD "")⟩
  else
    let data := match localData with
      | some d => some d
      | none => sessionData
    match data with
    | some parsed =>
        if now - parsed.timestamp < freshnessWindowMs then
          some ⟨parsed.projectId, parsed.projectName⟩
        else
          none
    | none => none

/-- C4: when both URL parameters are present (with values), `loadProject`
returns the URL-derived record — `projectId` from `project` and the
decoded `name` — regardless of any conflicting stored records and of the
current time. -/
theorem loadProject_url_precedence
    (decode : String → String) (u n : String)
    (localData sessionData : Option StoredRecord) (now : Int)
    (hu : u ≠ "") (hn : n ≠ "") :
    loadProject decode (some u) (some n) localData sessionData now =
      some ⟨u, decode n⟩ := by
  simp [loadProject, jsTruthy, hu, hn]

/-- C4 witness: URL pair `("p-url", "Url Name")` wins over a conflicting
stored record. -/
theorem loadProject_url_precedence_witness :
    loadProject id (some "p-url") (some "Url Name")
      (some ⟨"p-stored", "Stored Name", 0⟩) (some ⟨"p-sess", "Sess", 0⟩) 0 =
      some ⟨"p-url", "Url Name"⟩ :=
  loadProject_url_precedence id "p-url" "Url Name"
    (some ⟨"p-stored", "Stored Name", 0⟩) (some ⟨"p-sess", "Sess", 0⟩) 0
    (by decide) (by decide)

/-- C5: with no `project` reference in the URL, a stored record that the
storage lookup yields (tier-1, else tier-2) whose timestamp is more than
24 hours before `now` is treated as absent: `loadProject` returns `none`. -/
theorem loadProject_expired_record_ignored
    (decode : String → String) (nameFromUrl : Option String)
    (localData sessionData : Option StoredRecord) (r : StoredRecord) (now : Int)
    (hdata : (match localData with
      | some d => some d
      | none => sessionData) = some r)
    (hold : now - r.timestamp > freshnessWindowMs) :
    loadProject decode none nameFromUrl localData sessionData now = none := by
  have hnotlt : ¬(now - r.timestamp < freshnessWindowMs) := by omega
  simp [loadProject, jsTruthy, hdata, hnotlt]

/-- C5 witness: a record 24 h + 1 ms old, no URL project parameter. -/
theorem loadProject_expired_record_ignored_witness :
    loadProject id none none (some ⟨"p1", "Old", 0⟩) none (86400001 : Int) = none :=
  loadProject_expired_record_ignored id none (some ⟨"p1", "Old", 0⟩) none
    ⟨"p1", "Old", 0⟩ 86400001 rfl (by decide)

/-- C10: (1) unless both URL parameters are truthy-present, the URL is
ignored: the result equals the pure storage lookup (both parameters
absent); (2) when both are present, the result is the URL-derived record
for every current time — no freshness check applies to URL-carried
session pointers. -/
theorem loadProject_url_needs_both_params_and_never_expires :
    (∀ (decode : String → String) (projectFromUrl nameFromUrl : Option String)
        (localData sessionData : Option StoredRecord) (now : Int),
      (jsTruthy projectFromUrl = false ∨ jsTruthy nameFromUrl = false) →
      loadProject decode projectFromUrl nameFromUrl localData sessionData now =
        loadProject decode none none localData sessionData now) ∧
    (∀ (decode : String → String) (u n : String)
        (localData sessionData : Option StoredRecord),
      u ≠ "" → n ≠ "" →
      ∀ now : Int,
        loadProject decode (some u) (some n) localData sessionData now =
          some ⟨u, decode n⟩) := by
  constructor
  · intro decode projectFromUrl nameFromUrl localData sessionData now h
    have hnone : jsTruthy none = false := rfl
    rcases h with h | h <;> simp [loadProject, h, hnone]
  · intro decode u n localData sessionData hu hn now
    simp [loadProject, jsTruthy, hu, hn]

/-- C10 witness: with only `project` present the stale stored record
decides (and is expired → `none`); with both present the URL record is
returned even at a time far past the stored timestamp. -/
theorem loadProject_url_needs_both_params_and_never_expires_witness :
    loadProject id (some "p-url") none (some ⟨"p1", "Old", 0⟩) none 86400001 =
      loadProject id none none (some ⟨"p1", "Old", 0⟩) none 86400001 ∧
    loadProject id (some "p-url") (some "Nm") (some ⟨"p1", "Old", 0⟩) none 86400001 =
      some ⟨"p-url", "Nm"⟩ :=
  ⟨loadProject_url_needs_both_params_and_never_expires.1 id (some "p-url") none
      (some ⟨"p1", "Old", 0⟩) none 86400001 (Or.inr rfl),
    loadProject_url_needs_both_params_and_never_expires.2 id "p-url" "Nm"
      (some ⟨"p1", "Old", 0⟩) none (by decide) (by decide) 86400001⟩

/-- Environment for `ProjectStateManager.saveProject`: whether each write
throws, whether each storage tier is defined, and which writes have been
performed so far. -/
structure SaveEnv where
  urlThrows : Bool
  localAvailable : Bool
  localThrows : Bool
  sessionAvailable : Bool
  sessionThrows : Bool
  urlWritten : Bool := false
  localWritten : Bool := false
  sessionWritten : Bool := false
deriving DecidableEq, Repr

/-- `ProjectStateManager.saveProject`: one `try` block performs, in order,
the URL/history write, the `localStorage` write (when `localStorage` is
defined) and the `sessionStorage` write (when defined), then returns
`true`; the single `catch` returns `false`, keeping whatever was written
before the throw. -/
def saveProject (env : SaveEnv) : Bool × SaveEnv :=
  if env.urlThrows then
    (false, env)
  else
    let env1 := { env with urlWritten := true }
    if env1.localAvailable && env1.localThrows then
      (false, env1)
    else
      let env2 := if env1.localAvailable then { env1 with localWritten := true } else env1
      if env2.sessionAvailable && env2.sessionThrows then
        (false, env2)
      else
        let env3 := if env2.sessionAvailable then { env2 with sessionWritten := true } else env2
        (true, env3)

/-- C8 counterexample: both storage tiers are available and would succeed,
but the URL write throws — and then neither the tier-1 nor the tier-2
write is performed, refuting per-tier isolation. -/
theorem saveProject_not_tier_isolated :
    let env : SaveEnv :=
      { urlThrows := true, localAvailable := true, localThrows := false,
        sessionAvailable := true, sessionThrows := false }
    env.urlThrows = true ∧ env.localThrows = false ∧ env.sessionThrows = false ∧
    (saveProject env).2.localWritten = false ∧
    (saveProject env).2.sessionWritten = false ∧
    (saveProject env).1 = false := by
  decide

/-- C8 amended: all three writes share one failure handler.  Starting from
an environment with no write performed yet: the URL tier is written iff
its write does not throw; `localStorage` is written iff it is defined, its
write does not throw, and the URL write did not throw first;
`sessionStorage` is written iff it is defined, its write does not throw,
and no earlier write threw; `saveProject` returns `true` iff no write
threw.  Writes performed before a throw are kept, and no failure
propagates (the function is total). -/
theorem saveProject_single_try_semantics (env : SaveEnv)
    (h0 : env.urlWritten = false ∧ env.localWritten = false ∧
      env.sessionWritten = false) :
    ((saveProject env).2.urlWritten = true ↔ env.urlThrows = false) ∧
    ((saveProject env).2.localWritten = true ↔
      (env.urlThrows = false ∧ env.localAvailable = true ∧
        env.localThrows = false)) ∧
    ((saveProject env).2.sessionWritten = true ↔
      (env.urlThrows = false ∧ ¬(env.localAvailable = true ∧ env.localThrows = true) ∧
        env.sessionAvailable = true ∧ env.sessionThrows = false)) ∧
    ((saveProject env).1 = true ↔
      (env.urlThrows = false ∧ ¬(env.localAvailable = true ∧ env.localThrows = true) ∧
        ¬(env.sessionAvailable = true ∧ env.sessionThrows = true))) := by
  obtain ⟨ut, la, lt, sa, st, uw, lw, sw⟩ := env
  obtain ⟨h1, h2, h3⟩ := h0
  simp only at h1 h2 h3
  subst h1; subst h2; subst h3
  cases ut <;> cases la <;> cases lt <;> cases sa <;> cases st <;> decide

/-- C8 amended witness: with `localStorage` throwing, the URL write is
kept, `sessionStorage` is skipped, and `saveProject` returns `false`. -/
theorem saveProject_single_try_semantics_witness :
    let env : SaveEnv :=
      { urlThrows := false, localAvailable := true, localThrows := true,
        sessionAvailable := true, sessionThrows := false }
    ((saveProject env).2.urlWritten = true ↔ env.urlThrows = false) ∧
    ((saveProject env).2.localWritten = true ↔
      (env.urlThrows = false ∧ env.localAvailable = true ∧
        env.localThrows = false)) ∧
    ((saveProject env).2.sessionWritten = true ↔
      (env.urlThrows = false ∧ ¬(env.localAvailable = true ∧ env.localThrows = true) ∧
        env.sessionAvailable = true ∧ env.sessionThrows = false)) ∧
    ((saveProject env).1 = true ↔
      (env.urlThrows = false ∧ ¬(env.localAvailable = true ∧ env.localThrows = true) ∧
        ¬(env.sessionAvailable = true ∧ env.sessionThrows = true))) :=
  saveProject_single_try_semantics
    { urlThrows := false, localAvailable := true, localThrows := true,
      sessionAvailable := true, sessionThrows := false }
    ⟨rfl, rfl, rfl⟩

/-! ### Project creation (`MainTts.startProject` and the generate button)

`startProject` validates `mainText`, `mainSelectedVoice` and `audioName`
before any network call; the generate button is additionally disabled
below 15 words.  A user-initiated create action is a click on the enabled
button, which invokes `startProject`. -/

/-- A selectable voice (only the fields `startProject` uses). -/
structure Voice where
  id : String
  name : String
deriving DecidableEq, Repr

/-- The form state read by `startProject` and the generate button. -/
structure CreateForm where
  mainText : String
  mainSelectedVoice : Option Voice
  audioName : String
  temperature : Int
  topP : Int
  autoNormalize : Bool
deriving DecidableEq, Repr

/-- Character-level `String.prototype.trim`: drop whitespace from both
ends. -/
def trimChars (l : List Char) : List Char :=
  (((l.dropWhile Char.isWhitespace).reverse).dropWhile Char.isWhitespace).reverse

/-- `s.trim()` over the string's character list. -/
def jsTrim (s : String) : List Char := trimChars s.data

/-- Helper for `wordCount`: the number of maximal non-whitespace runs,
which is what `trim().split(/\s+/).filter(Boolean)` leaves. -/
def countWords : List Char → Bool → Nat
  | [], _ => 0
  | c :: cs, inWord =>
    if c.isWhitespace then countWords cs false
    else (if inWord then 0 else 1) + countWords cs true

/-- `mainText.trim().split(/\s+/).filter(Boolean).length`: the number of
whitespace-separated words. -/
def wordCount (s : String) : Nat := countWords s.data false

/-- The network requests `startProject` can issue. -/
inductive Request
  | cleanup (projectId : String)
  | create (script : String) (voiceId : String) (temperature topP : Int)
      (autoNormalize : Bool)
deriving DecidableEq, Repr

/-- The validation message set by `startProject`. -/
def validationMsg : String := "Please provide text, a voice, and a project name."

/-- One invocation of `startProject` up to the create call: the guard
`!mainText.trim() || !mainSelectedVoice || !audioName.trim()` sets the
error and returns before any request; otherwise a best-effort cleanup of
the previous session pointer (when one exists) precedes the create
request.  Returns the surfaced validation error and the requests sent. -/
def startProjectRun (f : CreateForm) (oldProject : Option LoadedProject) :
    Option String × List Request :=
  match f.mainSelectedVoice with
  | none => (some validationMsg, [])
  | some v =>
      if jsTrim f.mainText == [] || jsTrim f.audioName == [] then
        (some validationMsg, [])
      else
        let cleanupReqs := match oldProject with
          | some old => [Request.cleanup old.projectId]
          | none => []
        (none,
          cleanupReqs ++
            [Request.create f.mainText v.id f.temperature f.topP f.autoNormalize])

/-- The generate button's `disabled` prop:
`!mainText.trim() || !mainSelectedVoice || !audioName.trim() || wordCount < 15`. -/
def generateButtonDisabled (f : CreateForm) : Bool :=
  jsTrim f.mainText == [] || f.mainSelectedVoice.isNone ||
    jsTrim f.audioName == [] || wordCount f.mainText < 15

/-- The generate button's label (the message shown for a too-short
script). -/
def generateButtonLabel (isProcessing : Bool) (f : CreateForm) : String :=
  if isProcessing then "Starting Project..."
  else if wordCount f.mainText < 15 then "Minimum 15 words required"
  else "Generate Audio"

/-- Requests produced by a user-initiated create action: a click reaches
`startProject` only when the button is enabled. -/
def createActionRequests (f : CreateForm) (oldProject : Option LoadedProject) :
    List Request :=
  if generateButtonDisabled f then [] else (startProjectRun f oldProject).2

/-- C9: with any required field missing — empty trimmed script, no voice,
empty trimmed project name, or word count below 15 — a user-initiated
create action sends no request at all (neither cleanup nor create), and a
validation message is surfaced: the `startProject` guard sets the error
(and sends nothing) for the first three conditions, and the button itself
shows the minimum-word-count message for the last. -/
theorem create_action_validated_before_network
    (f : CreateForm) (oldProject : Option LoadedProject)
    (hmiss : jsTrim f.mainText = [] ∨ f.mainSelectedVoice = none ∨
      jsTrim f.audioName = [] ∨ wordCount f.mainText < 15) :
    createActionRequests f oldProject = [] ∧
    (jsTrim f.mainText = [] ∨ f.mainSelectedVoice = none ∨ jsTrim f.audioName = [] →
      startProjectRun f oldProject = (some validationMsg, [])) ∧
    (wordCount f.mainText < 15 →
      generateButtonLabel false f = "Minimum 15 words required") := by
  refine ⟨?_, ?_, ?_⟩
  · have hdis : generateButtonDisabled f = true := by
      rcases hmiss with h | h | h | h <;>
        simp [generateButtonDisabled, h, Option.isNone]
    simp [createActionRequests, hdis]
  · intro hval
    rcases hval with h | h | h
    · cases hv : f.mainSelectedVoice with
      | none => simp [startProjectRun, hv]
      | some v => simp [startProjectRun, hv, h]
    · simp [startProjectRun, h]
    · cases hv : f.mainSelectedVoice with
      | none => simp [startProjectRun, hv]
      | some v => simp [startProjectRun, hv, h]
  · intro hwc
    simp [generateButtonLabel, hwc]

/-- C9 witness: a 2-word script (below the 15-word minimum, with voice and
name set) produces no request and the button shows the word-count
message; and with the voice missing, `startProject` surfaces the
validation error without any request. -/
theorem create_action_validated_before_network_witness :
    createActionRequests
      { mainText := "hello world", mainSelectedVoice := some ⟨"v1", "V"⟩,
        audioName := "My Audio", temperature := 0, topP := 0,
        autoNormalize := true }
      (some ⟨"old", "Old"⟩) = [] ∧
    generateButtonLabel false
      { mainText := "hello world", mainSelectedVoice := some ⟨"v1", "V"⟩,
        audioName := "My Audio", temperature := 0, topP := 0,
        autoNormalize := true } = "Minimum 15 words required" ∧
    startProjectRun
      { mainText := "hello world", mainSelectedVoice := none,
        audioName := "My Audio", temperature := 0, topP := 0,
        autoNormalize := true } none = (some validationMsg, []) := by
  have h1 := create_action_validated_before_network
    { mainText := "hello world", mainSelectedVoice := some ⟨"v1", "V"⟩,
      audioName := "My Audio", temperature := 0, topP := 0,
      autoNormalize := true }
    (some ⟨"old", "Old"⟩) (Or.inr (Or.inr (Or.inr (by decide))))
  have h2 := create_action_validated_before_network
    { mainText := "hello world", mainSelectedVoice := none,
      audioName := "My Audio", temperature := 0, topP := 0,
      autoNormalize := true }
    none (Or.inr (Or.inl rfl))
  exact ⟨h1.1, h1.2.2 (by decide), h2.2.1 (Or.inr (Or.inl rfl))⟩

/-! ### Regenerate gating (`ChunkItem` / `ProjectView`)

`handleRegenerate` itself has no index guard: the refusal of chunk 0 is
enforced by the render layer.  `ChunkItem` renders a regenerate (or
retry) button wired to `onRegenerate` only for a completed chunk with an
audio file, or a failed chunk, whose `index` is not 0 — for index 0 it
renders a static note instead; `ProjectView` instantiates `ChunkItem` for
each chunk position (no chunk list is rendered while the project is
normalizing). -/

/-- `isCancellable` in `ChunkItem`:
`chunk.status === 'processing' || chunk.status === 'pending'`. -/
def isCancellable (c : Chunk) : Bool :=
  c.status == ChunkStatus.processing || c.status == ChunkStatus.pending

/-- Whether `ChunkItem` renders an enabled control wired to
`onRegenerate` for chunk `c`: false while the project is cancelling and
the chunk is cancellable; otherwise only the completed-with-audio and
failed branches render the button, and only when `chunk.index !== 0`;
the button is disabled while `isRegenerating`. -/
def chunkItemRegenerateActive (c : Chunk) (isCancelling isRegenerating : Bool) :
    Bool :=
  if isCancelling && isCancellable c then false
  else if c.status == ChunkStatus.completed && c.audio_filename.isSome then
    if c.index == 0 then false else !isRegenerating
  else if c.status == ChunkStatus.failed then
    if c.index == 0 then false else !isRegenerating
  else false

/-- The chunk positions whose rendered `ChunkItem` exposes an active
regenerate control, i.e. the indices `handleRegenerate` (and hence
`regenerateChunk`) can be invoked with from the UI.  `ProjectView` maps
position `index` to `onRegenerate(index)` and shows no chunk list during
normalization. -/
def regenTargets (p : Project) (isCancelling : Bool)
    (regenerating : List Nat) : List Nat :=
  if p.status.getD "" == "normalizing" then []
  else
    (List.range p.chunks.length).filter fun i =>
      chunkItemRegenerateActive (p.chunks.getD i default) isCancelling
        (regenerating.contains i)

/-- C2: chunk 0 is never regenerable from the UI.  A chunk whose `index`
is 0 gets no regenerate control whatever its status, audio filename or
the cancelling/regenerating flags; consequently, for a project whose
chunks carry their positions as `index` (the documented index-stability
invariant), position 0 is never among the positions that can reach
`regenerateChunk`. -/
theorem chunk_zero_never_regenerable :
    (∀ (c : Chunk) (isCancelling isRegenerating : Bool), c.index = 0 →
      chunkItemRegenerateActive c isCancelling isRegenerating = false) ∧
    (∀ (p : Project) (isCancelling : Bool) (regenerating : List Nat),
      (∀ (i : Nat) (h : i < p.chunks.length), (p.chunks.get ⟨i, h⟩).index = i) →
      0 ∉ regenTargets p isCancelling regenerating) := by
  have hpart1 : ∀ (c : Chunk) (isCancelling isRegenerating : Bool), c.index = 0 →
      chunkItemRegenerateActive c isCancelling isRegenerating = false := by
    intro c isC isR h0
    simp [chunkItemRegenerateActive, h0]
  refine ⟨hpart1, ?_⟩
  intro p isC regen hidx hmem
  by_cases hn : (p.status.getD "" == "normalizing") = true
  · simp [regenTargets, hn] at hmem
  · simp only [regenTargets, hn, Bool.false_eq_true, if_false, if_neg] at hmem
    rw [List.mem_filter] at hmem
    obtain ⟨hrange, hactive⟩ := hmem
    rw [List.mem_range] at hrange
    have hget : p.chunks.getD 0 default = p.chunks.get ⟨0, hrange⟩ := by
      simp [List.getD_eq_getElem?_getD, List.getElem?_eq_getElem hrange,
        List.get_eq_getElem]
    rw [hget, hpart1 _ _ _ (hidx 0 hrange)] at hactive
    exact Bool.false_ne_true hactive

/-- C2 witness: a two-chunk project (chunk 0 completed with audio, chunk 1
completed with audio): only position 1 exposes a regenerate control, and
a completed, a failed and a processing chunk with `index = 0` all expose
none. -/
theorem chunk_zero_never_regenerable_witness :
    chunkItemRegenerateActive
      ⟨0, "a", ChunkStatus.completed, some "a0.wav", none, none⟩ false false = false ∧
    chunkItemRegenerateActive
      ⟨0, "a", ChunkStatus.failed, none, none, none⟩ false false = false ∧
    (0 ∉ regenTargets
      { id := "p1",
        chunks := [⟨0, "a", ChunkStatus.completed, some "a0.wav", none, none⟩,
          ⟨1, "b", ChunkStatus.completed, some "a1.wav", none, none⟩],
        status := some "review" } false []) :=
  ⟨chunk_zero_never_regenerable.1
      ⟨0, "a", ChunkStatus.completed, some "a0.wav", none, none⟩ false false rfl,
    chunk_zero_never_regenerable.1
      ⟨0, "a", ChunkStatus.failed, none, none, none⟩ false false rfl,
    chunk_zero_never_regenerable.2
      { id := "p1",
        chunks := [⟨0, "a", ChunkStatus.completed, some "a0.wav", none, none⟩,
          ⟨1, "b", ChunkStatus.completed, some "a1.wav", none, none⟩],
        status := some "review" } false [] (by decide)⟩

/-! ### Optimistic regenerate with rollback (`MainTts.handleRegenerate`)

The MainTts component's `handleRegenerate(chunkIndex)` optimistically
sets `chunks[chunkIndex].status = 'processing'` and clears
`audio_filename`, then calls `regenerateChunk`; on failure it sets the
scoped error message and marks `chunks[chunkIndex].status = 'failed'`
(the audio filename stays cleared). -/

/-- Point update of the chunk list at a position (the in-place
`chunks[chunkIndex]` mutation). -/
def updateChunk : List Chunk → Nat → (Chunk → Chunk) → List Chunk
  | [], _, _ => []
  | c :: cs, 0, f => f c :: cs
  | c :: cs, i + 1, f => c :: updateChunk cs i f

theorem updateChunk_length (l : List Chunk) (i : Nat) (f : Chunk → Chunk) :
    (updateChunk l i f).length = l.length := by
  induction l generalizing i with
  | nil => rfl
  | cons c cs ih =>
      cases i with
      | zero => rfl
      | succ j => simpa [updateChunk] using ih j

theorem updateChunk_getD_self (l : List Chunk) (i : Nat) (f : Chunk → Chunk)
    (h : i < l.length) :
    (updateChunk l i f).getD i default = f (l.getD i default) := by
  induction l generalizing i with
  | nil => simp at h
  | cons c cs ih =>
      cases i with
      | zero => rfl
      | succ j =>
          have hj : j < cs.length := by simpa using h
          simpa [updateChunk] using ih j hj

theorem updateChunk_getD_other (l : List Chunk) (i j : Nat) (f : Chunk → Chunk)
    (hne : j ≠ i) :
    (updateChunk l i f).getD j default = l.getD j default := by
  induction l generalizing i j with
  | nil => rfl
  | cons c cs ih =>
      cases i with
      | zero =>
          cases j with
          | zero => exact absurd rfl hne
          | succ k => rfl
      | succ i' =>
          cases j with
          | zero => rfl
          | succ k => simpa [updateChunk] using ih i' k (by omega)

/-- `handleRegenerate` of the MainTts component, as a function of the
project held in state, the current error message, the requested chunk
index, and whether the remote `regenerateChunk` call succeeds.  Returns
the updated project and error message (the success path then schedules a
fast re-poll, not modelled here). -/
def handleRegenerate (p : Project) (prevError : Option String) (chunkIndex : Nat)
    (remoteOk : Bool) : Project × Option String :=
  let optimistic :=
    { p with chunks := updateChunk p.chunks chunkIndex fun c =>
        { c with status := ChunkStatus.processing, audio_filename := none } }
  if remoteOk then
    (optimistic, prevError)
  else
    ({ optimistic with chunks := updateChunk optimistic.chunks chunkIndex fun c =>
        { c with status := ChunkStatus.failed } },
      some ("Failed to regenerate chunk " ++ toString (chunkIndex + 1) ++ "."))

/-- C7: regenerating a completed chunk at a non-zero index `i` whose
remote call fails leaves chunk `i` with status `failed` and no audio
filename, surfaces the error message naming chunk `i + 1`, and leaves
every other chunk — and the rest of the project — unchanged. -/
theorem regenerate_failure_scoped_rollback
    (p : Project) (prevError : Option String) (i : Nat)
    (hi : i < p.chunks.length) (hnz : i ≠ 0)
    (hcompleted : (p.chunks.getD i default).status = ChunkStatus.completed) :
    let res := handleRegenerate p prevError i false
    (res.1.chunks.getD i default).status = ChunkStatus.failed ∧
    (res.1.chunks.getD i default).audio_filename = none ∧
    (res.1.chunks.getD i default).text = (p.chunks.getD i default).text ∧
    (res.1.chunks.getD i default).index = (p.chunks.getD i default).index ∧
    res.2 = some ("Failed to regenerate chunk " ++ toString (i + 1) ++ ".") ∧
    res.1.chunks.length = p.chunks.length ∧
    (∀ j, j ≠ i → res.1.chunks.getD j default = p.chunks.getD j default) ∧
    res.1.id = p.id ∧ res.1.status = p.status ∧ res.1.audioName = p.audioName := by
  intro res
  have hlen1 : (updateChunk p.chunks i fun c =>
      { c with status := ChunkStatus.processing, audio_filename := none }).length =
      p.chunks.length := updateChunk_length _ _ _
  have hres : res.1.chunks = updateChunk
      (updateChunk p.chunks i fun c =>
        { c with status := ChunkStatus.processing, audio_filename := none }) i
      (fun c => { c with status := ChunkStatus.failed }) := by
    simp [res, handleRegenerate]
  have hgd : res.1.chunks.getD i default =
      { p.chunks.getD i default with
          status := ChunkStatus.failed,
          audio_filename := none } := by
    rw [hres, updateChunk_getD_self _ _ _ (by omega),
      updateChunk_getD_self _ _ _ hi]
  refine ⟨?_, ?_, ?_, ?_, ?_, ?_, ?_, ?_, ?_, ?_⟩
  · rw [hgd]
  · rw [hgd]
  · rw [hgd]
  · rw [hgd]
  · simp [res, handleRegenerate]
  · rw [hres, updateChunk_length, updateChunk_length]
  · intro j hj
    rw [hres, updateChunk_getD_other _ _ _ _ hj, updateChunk_getD_other _ _ _ _ hj]
  · simp [res, handleRegenerate]
  · simp [res, handleRegenerate]
  · simp [res, handleRegenerate]

/-- C7 witness: a three-chunk project, all completed, regenerate of chunk
index 2 fails: chunk 2 ends `failed` with no audio file, the error names
chunk 3, and chunks 0 and 1 are untouched. -/
theorem regenerate_failure_scoped_rollback_witness :
    let p : Project :=
      { id := "p1",
        chunks := [⟨0, "a", ChunkStatus.completed, some "a0.wav", none, none⟩,
          ⟨1, "b", ChunkStatus.completed, some "a1.wav", none, none⟩,
          ⟨2, "c", ChunkStatus.completed, some "a2.wav", none, none⟩],
        status := some "review" }
    let res := handleRegenerate p none 2 false
    (res.1.chunks.getD 2 default).status = ChunkStatus.failed ∧
    (res.1.chunks.getD 2 default).audio_filename = none ∧
    res.2 = some "Failed to regenerate chunk 3." ∧
    res.1.chunks.getD 0 default = p.chunks.getD 0 default ∧
    res.1.chunks.getD 1 default = p.chunks.getD 1 default := by
  intro p res
  have h := regenerate_failure_scoped_rollback p none 2 (by decide) (by decide)
    (by decide)
  exact ⟨h.1, h.2.1, h.2.2.2.2.1, h.2.2.2.2.2.2.1 0 (by decide),
    h.2.2.2.2.2.2.1 1 (by decide)⟩

end Emberglow
